import Mathlib

/-!
Shallow embedding of `src/sysmon.c` (the sampling engine of the sysmon
telemetry monitor) and proofs about it.

Modelling conventions:
* `uint32_t` tick counters and sizes become `Nat`; the code's wraparound
  arithmetic is written out explicitly against `UINT32_MAX = 2^32 - 1`.
* `float` percentages become `ℚ`; the C formulas are transcribed exactly
  (division, multiplication by 100, clamping), abstracting only from
  floating-point rounding.
* The struct layouts (`TaskUsageSample`, `SysMonState`) live in `sysmon.h`,
  which is not part of the repository snapshot; their fields are
  reconstructed from every use in `sysmon.c`.  Task names are modelled as
  exact bounded identifiers (`String`), per spec §3 ("bounded-length
  identifier, used as the sole identity key"); the `char` array width of
  `task_name` is declared only in the missing header.
* Kernel and allocator calls (`uxTaskGetSystemState`, `calloc`, `malloc`,
  `heap_caps_get_*`, `sysmon_stack_get_size`, ...) are oracles: their
  results for one cycle are inputs to the embedded functions.
* `CONFIG_SYSMON_SAMPLE_COUNT` and `SYSMON_MAX_TRACKED_TASKS` are build
  configuration constants from the missing headers; they are carried as
  parameters `SC` and `MAXT`.
* The per-slot circular history buffers (length `CONFIG_SYSMON_SAMPLE_COUNT`)
  become `List`s written with `List.set` at the slot's `write_index`.
* The `static` locals `prev_idle_ticks_0/1` of `_calculate_cpu_metrics`
  persist for the process lifetime, so they are fields of the state record.
-/

/-- `UINT32_MAX` from `<stdint.h>`. -/
def UINT32_MAX : Nat := 2 ^ 32 - 1

/-- One entry of the task-tracking table (`TaskUsageSample`, declared in
`sysmon.h`; fields reconstructed from their uses in `sysmon.c`). -/
structure TaskUsageSample where
  task_name : String
  is_active : Bool
  consecutive_zero_samples : Nat
  prev_run_time_ticks : Nat
  usage_percent_history : List ℚ
  stack_usage_bytes_history : List Nat
  stack_usage_percent_history : List ℚ
  write_index : Nat
  stack_high_water_mark : Nat
  stack_size_bytes : Nat
  task_id : Nat
  current_priority : Nat
  base_priority : Nat
  total_run_time_ticks : Nat
  core_id : Int
  deriving Repr, DecidableEq

/-- A fully zeroed slot, as produced by `calloc` / `memset(..., 0, ...)`.
The history buffers have length `SC = CONFIG_SYSMON_SAMPLE_COUNT`. -/
def zeroSlot (SC : Nat) : TaskUsageSample :=
  { task_name := ""
    is_active := false
    consecutive_zero_samples := 0
    prev_run_time_ticks := 0
    usage_percent_history := List.replicate SC 0
    stack_usage_bytes_history := List.replicate SC 0
    stack_usage_percent_history := List.replicate SC 0
    write_index := 0
    stack_high_water_mark := 0
    stack_size_bytes := 0
    task_id := 0
    current_priority := 0
    base_priority := 0
    total_run_time_ticks := 0
    core_id := 0 }

instance : Inhabited TaskUsageSample := ⟨zeroSlot 0⟩

/-- One kernel snapshot entry (`TaskStatus_t` from FreeRTOS).  `xHandle` is
an abstract handle value; `pcTaskName` is `none` when the kernel reports a
`NULL` name pointer (`sysmon_monitor` skips such entries). -/
structure TaskStatus where
  pcTaskName : Option String
  xHandle : Nat
  ulRunTimeCounter : Nat
  usStackHighWaterMark : Nat
  xTaskNumber : Nat
  uxCurrentPriority : Nat
  uxBasePriority : Nat
  deriving Repr, DecidableEq

/-- The module state `SysMonState self` (struct declared in `sysmon.h`;
fields reconstructed from their uses in `sysmon.c`).  `tasks = none`
models `self.tasks == NULL`; `task_status_alloc` models
`self.task_status != NULL` (the scratch snapshot buffer, whose contents are
per-cycle kernel output and are modelled as cycle inputs).  The global
series ring buffers all share `series_write_index`. -/
structure SysMonState where
  tasks : Option (List TaskUsageSample)
  task_status_alloc : Bool
  task_capacity : Nat
  prev_total_run_time : Nat
  series_write_index : Nat
  cpu_overall_percent : List ℚ
  cpu_core_percent0 : List ℚ
  cpu_core_percent1 : List ℚ
  dram_free : List Nat
  dram_min_free : List Nat
  dram_largest_block : List Nat
  dram_total : List Nat
  dram_used_percent : List ℚ
  psram_free : List Nat
  psram_total : List Nat
  psram_used_percent : List ℚ
  psram_seen : Bool
  prev_idle_ticks_0 : Nat
  prev_idle_ticks_1 : Nat
  monitor_task_handle : Bool
  deriving Repr, DecidableEq

/-- The zero-initialized module state, `SysMonState self = { 0 }`
(sysmon.c:50).  The global series ring buffers are inline arrays of length
`SC = CONFIG_SYSMON_SAMPLE_COUNT`, zero-filled. -/
def initState (SC : Nat) : SysMonState :=
  { tasks := none
    task_status_alloc := false
    task_capacity := 0
    prev_total_run_time := 0
    series_write_index := 0
    cpu_overall_percent := List.replicate SC 0
    cpu_core_percent0 := List.replicate SC 0
    cpu_core_percent1 := List.replicate SC 0
    dram_free := List.replicate SC 0
    dram_min_free := List.replicate SC 0
    dram_largest_block := List.replicate SC 0
    dram_total := List.replicate SC 0
    dram_used_percent := List.replicate SC 0
    psram_free := List.replicate SC 0
    psram_total := List.replicate SC 0
    psram_used_percent := List.replicate SC 0
    psram_seen := false
    prev_idle_ticks_0 := 0
    prev_idle_ticks_1 := 0
    monitor_task_handle := false }

/-- The wraparound-safe delta of `_sample_task_states` (sysmon.c:165-174):
`total_now - total_prev` when the counter did not decrease, otherwise
`(UINT32_MAX - total_prev) + total_now + 1`. -/
def wrapDelta (now prev : Nat) : Nat :=
  if now ≥ prev then now - prev else (UINT32_MAX - prev) + now + 1

/-- `_sample_task_states` (sysmon.c:153-179).  The kernel oracle's outputs
`num` (`uxTaskGetSystemState` return value) and `total_run_time` are inputs.
Returns `none` when `num == 0` (the C code returns `false` without touching
`self`); otherwise the updated state and the pair
`(num_returned, delta_total)`. -/
def sample_task_states (s : SysMonState) (num total_run_time : Nat) :
    Option (SysMonState × Nat × Nat) :=
  if num = 0 then
    none
  else
    let delta_total := wrapDelta total_run_time s.prev_total_run_time
    some ({ s with prev_total_run_time := total_run_time }, num, delta_total)

/-- Inputs read by `_ensure_task_storage_capacity` from its oracles:
`snapshot_count` is the `uxTaskGetSystemState` return value when queried
with the existing buffer, `num_tasks_estimate` is `uxTaskGetNumberOfTasks()`,
and the two flags say whether `calloc` / `malloc` succeed this cycle. -/
structure EnsureInput where
  snapshot_count : Nat
  num_tasks_estimate : Nat
  alloc_tasks_ok : Bool
  alloc_status_ok : Bool
  deriving Repr, DecidableEq

/-- The `required_capacity` computation of `_ensure_task_storage_capacity`
(sysmon.c:89-104): grow by 50% when the buffer was full, else by 20%, by
at least one slot, and clamp to `MAXT = SYSMON_MAX_TRACKED_TASKS`. -/
def grow_required (MAXT actual : Nat) (buffer_was_full : Bool) : Nat :=
  let growth_percent := if buffer_was_full then 50 else 20
  let growth_buffer0 := actual * growth_percent / 100
  let growth_buffer := if growth_buffer0 < 1 then 1 else growth_buffer0
  let required0 := actual + growth_buffer
  if required0 > MAXT then MAXT else required0

/-- The new task table built by `_ensure_task_storage_capacity`'s
reallocation (sysmon.c:111-134): a zeroed `calloc` image of `required`
slots into which every active slot below the old capacity is copied at the
same index (no existing table means an all-zero table). -/
def grown_table (SC cap required : Nat)
    (old : Option (List TaskUsageSample)) : List TaskUsageSample :=
  match old with
  | none => List.replicate required (zeroSlot SC)
  | some ts =>
    (List.range required).map fun j =>
      let t := ts.getD j (zeroSlot SC)
      if j < cap ∧ t.is_active then t else zeroSlot SC

/-- The tail of `_ensure_task_storage_capacity` after `actual_task_count`
and `buffer_was_full` are settled (sysmon.c:89-143): growth target,
allocation, copy of active slots into the new table, and ownership
hand-off.  Returns the new state and the C function's boolean result; both
failure paths (`calloc`/`malloc` returning `NULL`) return `false` with the
state untouched — the C code frees the partial `new_tasks` allocation and
has mutated nothing in `self`. -/
def ensure_grow (SC MAXT : Nat) (s : SysMonState) (actual : Nat)
    (buffer_was_full : Bool) (inp : EnsureInput) : SysMonState × Bool :=
  let required := grow_required MAXT actual buffer_was_full
  if required ≤ s.task_capacity then (s, true)
  else if ¬ inp.alloc_tasks_ok then (s, false)
  else if ¬ inp.alloc_status_ok then (s, false)
  else
    ({ s with
        tasks := some (grown_table SC s.task_capacity required s.tasks)
        task_status_alloc := true
        task_capacity := required }, true)

/-- `_ensure_task_storage_capacity` (sysmon.c:63-144).  With an existing
buffer it first queries the kernel: strictly fewer entries than capacity
means capacity is already adequate; exactly capacity marks the buffer as
full.  Without a buffer, `uxTaskGetNumberOfTasks()` is the estimate. -/
def ensure_task_storage_capacity (SC MAXT : Nat) (s : SysMonState)
    (inp : EnsureInput) : SysMonState × Bool :=
  if s.task_capacity > 0 ∧ s.task_status_alloc then
    if inp.snapshot_count < s.task_capacity then (s, true)
    else
      ensure_grow SC MAXT s inp.snapshot_count
        (inp.snapshot_count = s.task_capacity) inp
  else
    ensure_grow SC MAXT s inp.num_tasks_estimate false inp

/-- The match of `_find_or_create_task_index`'s first scan (sysmon.c:190-197):
an active slot whose stored name equals the sampled name. -/
def slot_matches (t : TaskUsageSample) (name : String) : Bool :=
  t.is_active && t.task_name == name

/-- The freshly reset slot written by `_find_or_create_task_index` when it
claims an inactive slot (sysmon.c:204-207): `memset` to zero, then the name
is copied in, `is_active` set, and the miss counter cleared. -/
def discoveredSlot (SC : Nat) (name : String) : TaskUsageSample :=
  { zeroSlot SC with
      task_name := name
      is_active := true
      consecutive_zero_samples := 0 }

/-- `_find_or_create_task_index` (sysmon.c:187-214): return the first active
slot with a matching name; otherwise claim (reset) the first inactive slot;
otherwise report no slot (`-1` in C, `none` here).  Returns the possibly
updated table together with the chosen index. -/
def find_or_create_task_index (SC : Nat) (tasks : List TaskUsageSample)
    (name : String) : Option (List TaskUsageSample × Nat) :=
  match tasks.findIdx? (fun t => slot_matches t name) with
  | some j => some (tasks, j)
  | none =>
    match tasks.findIdx? (fun t => !t.is_active) with
    | some j => some (tasks.set j (discoveredSlot SC name), j)
    | none => none

/-- `sizeof(StackType_t)` on the 32-bit ESP32 targets (platform constant,
not defined in this repository). -/
def STACK_TYPE_SIZE : Nat := 4

/-- `_update_task_history` (sysmon.c:223-271) acting on the slot at `idx`:
per-task runtime delta (treating a counter decrease as delta 0), CPU
percentage against `delta_total`, stack accounting against the externally
registered size `stack_size_bytes` (`sysmon_stack_get_size`, an external
registry; `0` when unregistered), history writes at the slot's
`write_index`, cursor advance mod `SC`, and metadata refresh. -/
def update_task_history (SC : Nat) (slot : TaskUsageSample) (ts : TaskStatus)
    (stack_size_bytes : Nat) (delta_total : Nat) : TaskUsageSample :=
  let delta_task :=
    if ts.ulRunTimeCounter ≥ slot.prev_run_time_ticks then
      ts.ulRunTimeCounter - slot.prev_run_time_ticks
    else 0
  let usage : ℚ :=
    if delta_total > 0 then (delta_task : ℚ) / (delta_total : ℚ) * 100 else 0
  let stack_hwm_bytes := ts.usStackHighWaterMark * STACK_TYPE_SIZE
  let stack_used_bytes :=
    if stack_size_bytes > 0 then
      (if stack_size_bytes > stack_hwm_bytes then
        stack_size_bytes - stack_hwm_bytes
      else 0)
    else 0
  let stack_usage_percent : ℚ :=
    if stack_size_bytes > 0 then
      (stack_used_bytes : ℚ) / (stack_size_bytes : ℚ) * 100
    else 0
  { slot with
      prev_run_time_ticks := ts.ulRunTimeCounter
      consecutive_zero_samples := 0
      usage_percent_history := slot.usage_percent_history.set slot.write_index usage
      stack_high_water_mark := ts.usStackHighWaterMark
      stack_size_bytes := stack_size_bytes
      stack_usage_bytes_history :=
        slot.stack_usage_bytes_history.set slot.write_index stack_used_bytes
      stack_usage_percent_history :=
        slot.stack_usage_percent_history.set slot.write_index stack_usage_percent
      write_index := (slot.write_index + 1) % SC
      task_id := ts.xTaskNumber
      current_priority := ts.uxCurrentPriority
      base_priority := ts.uxBasePriority
      total_run_time_ticks := ts.ulRunTimeCounter
      core_id := -1 }

/-- The body of `_process_deleted_tasks` for one active, unseen slot
(sysmon.c:284-299): bump the miss counter, record a zero in all three
history buffers at the cursor, advance the cursor mod `SC`, and deactivate
(resetting the counter) once the misses reach `SC`. -/
def record_miss (SC : Nat) (t : TaskUsageSample) : TaskUsageSample :=
  let t1 :=
    { t with
        consecutive_zero_samples := t.consecutive_zero_samples + 1
        usage_percent_history := t.usage_percent_history.set t.write_index 0
        stack_usage_bytes_history := t.stack_usage_bytes_history.set t.write_index 0
        stack_usage_percent_history :=
          t.stack_usage_percent_history.set t.write_index 0
        write_index := (t.write_index + 1) % SC }
  if t1.consecutive_zero_samples ≥ SC then
    { t1 with is_active := false, consecutive_zero_samples := 0 }
  else t1

/-- `_process_deleted_tasks` (sysmon.c:278-308): every active slot not seen
in the current sample records a miss; seen or inactive slots are left
alone.  `tasks_seen` is the `bool` array indexed by slot. -/
def process_deleted_tasks (SC : Nat) (tasks : List TaskUsageSample)
    (tasks_seen : Nat → Bool) : List TaskUsageSample :=
  (List.range tasks.length).map fun j =>
    let t := tasks.getD j (zeroSlot SC)
    if t.is_active ∧ ¬ tasks_seen j then record_miss SC t else t

/-- The scan of `_calculate_cpu_metrics` over the snapshot (sysmon.c:325-338):
the last entry whose handle equals a core's idle-task handle supplies that
core's idle tick counter; a core whose idle task is absent keeps 0. -/
def find_idle_ticks (statuses : List TaskStatus)
    (idle_handle_0 idle_handle_1 : Nat) : Nat × Nat :=
  statuses.foldl
    (fun acc t =>
      if t.xHandle = idle_handle_0 then (t.ulRunTimeCounter, acc.2)
      else if t.xHandle = idle_handle_1 then (acc.1, t.ulRunTimeCounter)
      else acc)
    (0, 0)

/-- The per-core idle delta of `_calculate_cpu_metrics` (sysmon.c:343-344):
`idle - prev` when the counter did not decrease, else `0`. -/
def idle_delta (idle prev : Nat) : Nat := if idle ≥ prev then idle - prev else 0

/-- One core's usage in `_calculate_cpu_metrics` (sysmon.c:348-362):
`100 - delta_idle/delta_total*100` clamped into `[0, 100]` when
`delta_total > 0`, else `0`. -/
def core_usage_of (delta_idle delta_total : Nat) : ℚ :=
  if delta_total > 0 then
    let idle_percent : ℚ := (delta_idle : ℚ) / (delta_total : ℚ) * 100
    let u0 := 100 - idle_percent
    let u1 := if u0 < 0 then 0 else u0
    if u1 > 100 then 100 else u1
  else 0

/-- `_calculate_cpu_metrics` (sysmon.c:319-364).  The `static` locals
`prev_idle_ticks_0/1` are fields of the state; the function returns the
updated state and `(core_usage_0, core_usage_1, overall_usage)` with
`overall_usage = (core_usage_0 + core_usage_1) * 0.5`. -/
def calculate_cpu_metrics (s : SysMonState) (statuses : List TaskStatus)
    (idle_handle_0 idle_handle_1 : Nat) (delta_total : Nat) :
    SysMonState × ℚ × ℚ × ℚ :=
  let ticks := find_idle_ticks statuses idle_handle_0 idle_handle_1
  let delta_idle_0 := idle_delta ticks.1 s.prev_idle_ticks_0
  let delta_idle_1 := idle_delta ticks.2 s.prev_idle_ticks_1
  let c0 := core_usage_of delta_idle_0 delta_total
  let c1 := core_usage_of delta_idle_1 delta_total
  ({ s with prev_idle_ticks_0 := ticks.1, prev_idle_ticks_1 := ticks.2 },
    c0, c1, (c0 + c1) / 2)

/-- The allocator readings consumed by `_collect_memory_stats`
(`heap_caps_get_*`, `esp_get_minimum_free_heap_size`). -/
structure MemInput where
  dram_free : Nat
  dram_min_free : Nat
  dram_largest : Nat
  dram_total : Nat
  psram_free : Nat
  psram_total : Nat
  deriving Repr, DecidableEq

/-- `_collect_memory_stats` (sysmon.c:378-397): used-percentages for DRAM
and PSRAM, and the sticky `psram_seen` latch set when the PSRAM total is
nonzero.  Returns the updated state and
`(dram_used_percent, psram_used_percent)`; the raw readings are passed
through unchanged by the caller. -/
def collect_memory_stats (s : SysMonState) (m : MemInput) :
    SysMonState × ℚ × ℚ :=
  let dram_used := if m.dram_total > m.dram_free then m.dram_total - m.dram_free else 0
  let dram_up : ℚ :=
    if m.dram_total > 0 then (dram_used : ℚ) / (m.dram_total : ℚ) * 100 else 0
  let s1 := if m.psram_total > 0 then { s with psram_seen := true } else s
  let psram_used := if m.psram_total > m.psram_free then m.psram_total - m.psram_free else 0
  let psram_up : ℚ :=
    if m.psram_total > 0 then (psram_used : ℚ) / (m.psram_total : ℚ) * 100 else 0
  (s1, dram_up, psram_up)

/-- `_update_series_buffers` (sysmon.c:414-432): write every global series
buffer at the shared `series_write_index`, then advance that one cursor
mod `SC`. -/
def update_series_buffers (SC : Nat) (s : SysMonState)
    (overall c0 c1 : ℚ) (m : MemInput) (dram_up psram_up : ℚ) : SysMonState :=
  let w := s.series_write_index
  { s with
      cpu_overall_percent := s.cpu_overall_percent.set w overall
      cpu_core_percent0 := s.cpu_core_percent0.set w c0
      cpu_core_percent1 := s.cpu_core_percent1.set w c1
      dram_free := s.dram_free.set w m.dram_free
      dram_min_free := s.dram_min_free.set w m.dram_min_free
      dram_largest_block := s.dram_largest_block.set w m.dram_largest
      dram_total := s.dram_total.set w m.dram_total
      dram_used_percent := s.dram_used_percent.set w dram_up
      psram_free := s.psram_free.set w m.psram_free
      psram_total := s.psram_total.set w m.psram_total
      psram_used_percent := s.psram_used_percent.set w psram_up
      series_write_index := (w + 1) % SC }

/-- All oracle inputs consumed by one iteration of `sysmon_monitor`:
capacity-manager inputs, the kernel snapshot (`num_returned`,
`total_run_time`, the `statuses` scratch contents), the external stack-size
registry as a handle-indexed lookup, the two idle-task handles, the
success of the `tasks_seen` `calloc`, and the allocator readings. -/
structure CycleInput where
  ensure : EnsureInput
  num_returned : Nat
  total_run_time : Nat
  statuses : List TaskStatus
  stack_sizes : Nat → Nat
  idle_handle_0 : Nat
  idle_handle_1 : Nat
  tasks_seen_alloc_ok : Bool
  mem : MemInput

/-- Step 3 of the `sysmon_monitor` loop (sysmon.c:492-510): for each
snapshot entry with a non-`NULL` name, resolve or create its slot (skipping
the entry when the table is full), update that slot's history, and mark it
seen. -/
def update_all_tasks (SC : Nat) (stack_sizes : Nat → Nat) (delta_total : Nat)
    (statuses : List TaskStatus) (tasks : List TaskUsageSample)
    (tasks_seen : Nat → Bool) : List TaskUsageSample × (Nat → Bool) :=
  match statuses with
  | [] => (tasks, tasks_seen)
  | ts :: rest =>
    match ts.pcTaskName with
    | none => update_all_tasks SC stack_sizes delta_total rest tasks tasks_seen
    | some name =>
      match find_or_create_task_index SC tasks name with
      | none => update_all_tasks SC stack_sizes delta_total rest tasks tasks_seen
      | some (tasks1, idx) =>
        let updated := tasks1.set idx
          (update_task_history SC (tasks1.getD idx (zeroSlot SC)) ts
            (stack_sizes ts.xHandle) delta_total)
        update_all_tasks SC stack_sizes delta_total rest updated
          (fun k => if k = idx then true else tasks_seen k)

/-- One iteration of the `sysmon_monitor` loop (sysmon.c:459-535).  Each
early `continue` (capacity failure, empty snapshot, `tasks_seen` allocation
failure) ends the iteration with the state as committed so far. -/
def sysmon_cycle (SC MAXT : Nat) (s : SysMonState) (inp : CycleInput) :
    SysMonState :=
  match ensure_task_storage_capacity SC MAXT s inp.ensure with
  | (s0, false) => s0
  | (s0, true) =>
    match sample_task_states s0 inp.num_returned inp.total_run_time with
    | none => s0
    | some (s1, _num, delta_total) =>
      if ¬ inp.tasks_seen_alloc_ok then s1
      else
        let tasks0 := s1.tasks.getD []
        let lp := update_all_tasks SC inp.stack_sizes delta_total inp.statuses
          tasks0 (fun _ => false)
        let tasks2 := process_deleted_tasks SC lp.1 lp.2
        let s2 := { s1 with tasks := some tasks2 }
        let cm := calculate_cpu_metrics s2 inp.statuses inp.idle_handle_0
          inp.idle_handle_1 delta_total
        let mc := collect_memory_stats cm.1 inp.mem
        update_series_buffers SC mc.1 cm.2.2.2 cm.2.1 cm.2.2.1 inp.mem
          mc.2.1 mc.2.2

/-- `sysmon_deinit` (sysmon.c:550-570): stop the monitor task, free the
task table and the scratch snapshot buffer (pointers reset to `NULL`),
reset `task_capacity` and `prev_total_run_time` to zero.  (The HTTP stop
and the stack-registry cleanup act on external collaborators, not on this
state.) -/
def sysmon_deinit (s : SysMonState) : SysMonState :=
  { s with
      monitor_task_handle := false
      tasks := none
      task_status_alloc := false
      task_capacity := 0
      prev_total_run_time := 0 }

/-- C2: the sampler's `delta_total` follows the two-case wraparound rule of
`_sample_task_states`, and for in-range `uint32_t` readings that rule computes
exactly the modular difference `(now - prev) mod 2^32` — the true elapsed
ticks across a single overflow.  The sampler also commits `total_run_time`
as the new `prev_total_run_time`. -/
theorem sampler_delta_total_wraparound (s : SysMonState) (num total_run_time : Nat)
    (hnum : num ≠ 0) (hprev : s.prev_total_run_time < 2 ^ 32)
    (hnow : total_run_time < 2 ^ 32) :
    sample_task_states s num total_run_time =
      some ({ s with prev_total_run_time := total_run_time }, num,
        wrapDelta total_run_time s.prev_total_run_time) ∧
    (total_run_time ≥ s.prev_total_run_time →
      wrapDelta total_run_time s.prev_total_run_time =
        total_run_time - s.prev_total_run_time) ∧
    (total_run_time < s.prev_total_run_time →
      wrapDelta total_run_time s.prev_total_run_time =
        (UINT32_MAX - s.prev_total_run_time) + total_run_time + 1) ∧
    wrapDelta total_run_time s.prev_total_run_time =
      (total_run_time + 2 ^ 32 - s.prev_total_run_time) % 2 ^ 32 := by
  refine ⟨by simp [sample_task_states, hnum], ?_, ?_, ?_⟩
  · intro h
    simp [wrapDelta, h]
  · intro h
    simp [wrapDelta, Nat.not_le.mpr h, Nat.lt_asymm h]
  · unfold wrapDelta UINT32_MAX
    rcases Nat.lt_or_ge total_run_time s.prev_total_run_time with h | h
    · rw [if_neg (by omega)]
      omega
    · rw [if_pos h]
      omega

/-- Witness for C2 at the spec's own test vector: with
`prev = UINT32_MAX - 2` and `now = 1` the computed `delta_total` is `4`. -/
theorem sampler_delta_total_wraparound_witness :
    ∃ out,
      sample_task_states
          { initState 0 with prev_total_run_time := UINT32_MAX - 2 } 3 1 =
        some out ∧
      out.2.2 = 4 := by
  have h := sampler_delta_total_wraparound
    { initState 0 with prev_total_run_time := UINT32_MAX - 2 } 3 1
    (by decide) (by norm_num [initState, UINT32_MAX]) (by norm_num)
  refine ⟨_, h.1, ?_⟩
  have h4 := h.2.2.2
  simp only [h4]
  norm_num [initState, UINT32_MAX]

/-- Each core usage value produced by `_calculate_cpu_metrics` lies in
`[0, 100]` for arbitrary nonnegative deltas: `0` when `delta_total = 0`,
otherwise `100 - delta_idle/delta_total*100` clamped into the range. -/
theorem core_usage_of_bounds (d dt : Nat) :
    0 ≤ core_usage_of d dt ∧ core_usage_of d dt ≤ 100 := by
  have hip : (0 : ℚ) ≤ (d : ℚ) / (dt : ℚ) * 100 := by positivity
  simp only [core_usage_of]
  split_ifs <;> constructor <;> linarith

/-- C8: for arbitrary nonnegative idle and total deltas, the per-core usage
values of `_calculate_cpu_metrics` lie in `[0, 100]` (clamped when
`delta_total > 0`, and `0` when `delta_total = 0`), the overall usage is
exactly the average of the two per-core values, and hence also lies in
`[0, 100]`. -/
theorem cpu_metrics_bounds_and_average (s : SysMonState)
    (statuses : List TaskStatus) (h0 h1 dt : Nat) :
    (dt = 0 →
      (calculate_cpu_metrics s statuses h0 h1 dt).2.1 = 0 ∧
      (calculate_cpu_metrics s statuses h0 h1 dt).2.2.1 = 0) ∧
    0 ≤ (calculate_cpu_metrics s statuses h0 h1 dt).2.1 ∧
    (calculate_cpu_metrics s statuses h0 h1 dt).2.1 ≤ 100 ∧
    0 ≤ (calculate_cpu_metrics s statuses h0 h1 dt).2.2.1 ∧
    (calculate_cpu_metrics s statuses h0 h1 dt).2.2.1 ≤ 100 ∧
    (calculate_cpu_metrics s statuses h0 h1 dt).2.2.2 =
      ((calculate_cpu_metrics s statuses h0 h1 dt).2.1 +
        (calculate_cpu_metrics s statuses h0 h1 dt).2.2.1) / 2 ∧
    0 ≤ (calculate_cpu_metrics s statuses h0 h1 dt).2.2.2 ∧
    (calculate_cpu_metrics s statuses h0 h1 dt).2.2.2 ≤ 100 := by
  have b0 := core_usage_of_bounds
    (idle_delta (find_idle_ticks statuses h0 h1).1 s.prev_idle_ticks_0) dt
  have b1 := core_usage_of_bounds
    (idle_delta (find_idle_ticks statuses h0 h1).2 s.prev_idle_ticks_1) dt
  refine ⟨?_, ?_, ?_, ?_, ?_, ?_, ?_, ?_⟩
  · intro hdt
    subst hdt
    simp [calculate_cpu_metrics, core_usage_of]
  · simpa only [calculate_cpu_metrics] using b0.1
  · simpa only [calculate_cpu_metrics] using b0.2
  · simpa only [calculate_cpu_metrics] using b1.1
  · simpa only [calculate_cpu_metrics] using b1.2
  · simp only [calculate_cpu_metrics]
  · simp only [calculate_cpu_metrics]
    linarith [b0.1, b1.1]
  · simp only [calculate_cpu_metrics]
    linarith [b0.2, b1.2]

/-- Counterexample to C1: `_calculate_cpu_metrics` does NOT apply the
modular-wraparound rule to the per-core idle delta.  At
`idle_now = 5 < prev_idle = 10` the code computes `delta_idle = 0`, which
differs from the claimed `(UINT32_MAX - prev_idle) + idle_now + 1`;
observably, with `delta_total = 100` the code reports that core at 100%
usage, while the claimed wraparound delta would clamp it to 0%. -/
theorem idle_delta_not_wrapped_counterexample :
    idle_delta 5 10 = 0 ∧
    idle_delta 5 10 ≠ (UINT32_MAX - 10) + 5 + 1 ∧
    core_usage_of (idle_delta 5 10) 100 = 100 ∧
    core_usage_of ((UINT32_MAX - 10) + 5 + 1) 100 = 0 := by
  refine ⟨rfl, by norm_num [idle_delta, UINT32_MAX], ?_, ?_⟩
  · norm_num [idle_delta, core_usage_of]
  · norm_num [core_usage_of, UINT32_MAX]

/-- Idle-task snapshot entries used to witness the amended C1: core 0's
idle counter decreased (5 over a carried 10) while core 1's increased
(7 over a carried 3). -/
def c1Statuses : List TaskStatus :=
  [{ pcTaskName := some "IDLE0", xHandle := 1, ulRunTimeCounter := 5,
     usStackHighWaterMark := 0, xTaskNumber := 0, uxCurrentPriority := 0,
     uxBasePriority := 0 },
   { pcTaskName := some "IDLE1", xHandle := 2, ulRunTimeCounter := 7,
     usStackHighWaterMark := 0, xTaskNumber := 0, uxCurrentPriority := 0,
     uxBasePriority := 0 }]

/-- C1 as amended: for each of the two cores independently, the per-core
idle delta of `_calculate_cpu_metrics` is NOT wraparound-corrected —
whenever that core's current idle tick counter is less than its carried
previous idle value, the computed `delta_idle` is `0` (so with
`delta_total > 0` that core's usage is reported as the full 100),
regardless of what the other core's counter did; the current idle readings
are still committed as the new carried previous-idle state. -/
theorem idle_delta_clamped_to_zero (s : SysMonState)
    (statuses : List TaskStatus) (h0 h1 dt : Nat) :
    ((find_idle_ticks statuses h0 h1).1 < s.prev_idle_ticks_0 →
      idle_delta (find_idle_ticks statuses h0 h1).1 s.prev_idle_ticks_0 = 0 ∧
      (0 < dt → (calculate_cpu_metrics s statuses h0 h1 dt).2.1 = 100)) ∧
    ((find_idle_ticks statuses h0 h1).2 < s.prev_idle_ticks_1 →
      idle_delta (find_idle_ticks statuses h0 h1).2 s.prev_idle_ticks_1 = 0 ∧
      (0 < dt → (calculate_cpu_metrics s statuses h0 h1 dt).2.2.1 = 100)) ∧
    (calculate_cpu_metrics s statuses h0 h1 dt).1.prev_idle_ticks_0 =
      (find_idle_ticks statuses h0 h1).1 ∧
    (calculate_cpu_metrics s statuses h0 h1 dt).1.prev_idle_ticks_1 =
      (find_idle_ticks statuses h0 h1).2 := by
  have hu : 0 < dt → core_usage_of 0 dt = 100 := by
    intro hdt
    simp only [core_usage_of, if_pos hdt]
    norm_num
  refine ⟨?_, ?_, rfl, rfl⟩
  · intro ht0
    have hd0 : idle_delta (find_idle_ticks statuses h0 h1).1
        s.prev_idle_ticks_0 = 0 := by
      simp only [idle_delta, ge_iff_le,
        if_neg (by omega : ¬ s.prev_idle_ticks_0 ≤ (find_idle_ticks statuses h0 h1).1)]
    exact ⟨hd0, fun hdt => by simp only [calculate_cpu_metrics, hd0, hu hdt]⟩
  · intro ht1
    have hd1 : idle_delta (find_idle_ticks statuses h0 h1).2
        s.prev_idle_ticks_1 = 0 := by
      simp only [idle_delta, ge_iff_le,
        if_neg (by omega : ¬ s.prev_idle_ticks_1 ≤ (find_idle_ticks statuses h0 h1).2)]
    exact ⟨hd1, fun hdt => by simp only [calculate_cpu_metrics, hd1, hu hdt]⟩

/-- Witness for the amended C1 at a cycle where only core 0's idle counter
decreased (5 < 10) while core 1's increased (7 > 3): core 0's delta is 0
and its usage is reported as 100, and both current readings are committed
as the new previous-idle state. -/
theorem idle_delta_clamped_to_zero_witness :
    idle_delta (find_idle_ticks c1Statuses 1 2).1
      ({ initState 1 with prev_idle_ticks_0 := 10, prev_idle_ticks_1 := 3 }).prev_idle_ticks_0 = 0 ∧
    (calculate_cpu_metrics
        { initState 1 with prev_idle_ticks_0 := 10, prev_idle_ticks_1 := 3 }
        c1Statuses 1 2 100).2.1 = 100 ∧
    (calculate_cpu_metrics
        { initState 1 with prev_idle_ticks_0 := 10, prev_idle_ticks_1 := 3 }
        c1Statuses 1 2 100).1.prev_idle_ticks_0 =
      (find_idle_ticks c1Statuses 1 2).1 ∧
    (calculate_cpu_metrics
        { initState 1 with prev_idle_ticks_0 := 10, prev_idle_ticks_1 := 3 }
        c1Statuses 1 2 100).1.prev_idle_ticks_1 =
      (find_idle_ticks c1Statuses 1 2).2 := by
  obtain ⟨h0c, -, hp0, hp1⟩ := idle_delta_clamped_to_zero
    { initState 1 with prev_idle_ticks_0 := 10, prev_idle_ticks_1 := 3 }
    c1Statuses 1 2 100
  have hc := h0c (by decide)
  exact ⟨hc.1, hc.2 (by decide), hp0, hp1⟩

/-- C7: `_update_task_history` commits the new runtime counter, and the CPU
percentage it records at the slot's write cursor is
`delta_task / delta_total * 100` when `delta_total > 0` and `0` otherwise,
where `delta_task = runtime_now - prev_runtime_ticks` if the counter did
not decrease and `0` (no wraparound) if it did; in particular a decreased
counter always records `0`. -/
theorem task_history_delta_and_cpu_percent (SC : Nat)
    (slot : TaskUsageSample) (ts : TaskStatus) (ssb dt : Nat)
    (hw : slot.write_index < slot.usage_percent_history.length) :
    (update_task_history SC slot ts ssb dt).prev_run_time_ticks =
      ts.ulRunTimeCounter ∧
    (update_task_history SC slot ts ssb dt).usage_percent_history[slot.write_index]? =
      some (if 0 < dt then
        (((if ts.ulRunTimeCounter ≥ slot.prev_run_time_ticks then
             ts.ulRunTimeCounter - slot.prev_run_time_ticks
           else 0 : Nat) : ℚ) / (dt : ℚ)) * 100
      else 0) ∧
    (ts.ulRunTimeCounter < slot.prev_run_time_ticks →
      (update_task_history SC slot ts ssb dt).usage_percent_history[slot.write_index]? =
        some 0) := by
  refine ⟨rfl, ?_, ?_⟩
  · simp only [update_task_history]
    rw [List.getElem?_set_self hw]
  · intro hlt
    simp only [update_task_history]
    rw [List.getElem?_set_self hw]
    have hni : ¬ ts.ulRunTimeCounter ≥ slot.prev_run_time_ticks := by omega
    simp only [if_neg hni]
    split_ifs <;> norm_num

/-- Witness for C7: a fresh slot (`prev = 0`), runtime now 5, `delta_total`
10 — the recorded CPU percentage is `5/10*100`. -/
theorem task_history_delta_and_cpu_percent_witness :
    (update_task_history 2 (zeroSlot 2)
        { pcTaskName := some "t", xHandle := 0, ulRunTimeCounter := 5,
          usStackHighWaterMark := 0, xTaskNumber := 0, uxCurrentPriority := 0,
          uxBasePriority := 0 } 0 10).prev_run_time_ticks = 5 ∧
    (update_task_history 2 (zeroSlot 2)
        { pcTaskName := some "t", xHandle := 0, ulRunTimeCounter := 5,
          usStackHighWaterMark := 0, xTaskNumber := 0, uxCurrentPriority := 0,
          uxBasePriority := 0 } 0 10).usage_percent_history[(zeroSlot 2).write_index]? =
      some (if 0 < 10 then
        (((if 5 ≥ (zeroSlot 2).prev_run_time_ticks then
             5 - (zeroSlot 2).prev_run_time_ticks
           else 0 : Nat) : ℚ) / (10 : ℚ)) * 100
      else 0) ∧
    (5 < (zeroSlot 2).prev_run_time_ticks →
      (update_task_history 2 (zeroSlot 2)
          { pcTaskName := some "t", xHandle := 0, ulRunTimeCounter := 5,
            usStackHighWaterMark := 0, xTaskNumber := 0, uxCurrentPriority := 0,
            uxBasePriority := 0 } 0 10).usage_percent_history[(zeroSlot 2).write_index]? =
        some 0) :=
  task_history_delta_and_cpu_percent 2 (zeroSlot 2)
    { pcTaskName := some "t", xHandle := 0, ulRunTimeCounter := 5,
      usStackHighWaterMark := 0, xTaskNumber := 0, uxCurrentPriority := 0,
      uxBasePriority := 0 } 0 10 (by decide)

/-- C10: `sysmon_deinit` frees the task table and the scratch snapshot
buffer, resets the table pointers, the capacity and `prev_total_run_time`
to zero and clears the monitor task handle, while leaving every global
series buffer, the shared series write cursor, the `psram_seen` latch and
the carried per-core previous-idle tick values untouched. -/
theorem deinit_resets_table_preserves_series (s : SysMonState) :
    (sysmon_deinit s).tasks = none ∧
    (sysmon_deinit s).task_status_alloc = false ∧
    (sysmon_deinit s).task_capacity = 0 ∧
    (sysmon_deinit s).prev_total_run_time = 0 ∧
    (sysmon_deinit s).monitor_task_handle = false ∧
    (sysmon_deinit s).cpu_overall_percent = s.cpu_overall_percent ∧
    (sysmon_deinit s).cpu_core_percent0 = s.cpu_core_percent0 ∧
    (sysmon_deinit s).cpu_core_percent1 = s.cpu_core_percent1 ∧
    (sysmon_deinit s).dram_free = s.dram_free ∧
    (sysmon_deinit s).dram_min_free = s.dram_min_free ∧
    (sysmon_deinit s).dram_largest_block = s.dram_largest_block ∧
    (sysmon_deinit s).dram_total = s.dram_total ∧
    (sysmon_deinit s).dram_used_percent = s.dram_used_percent ∧
    (sysmon_deinit s).psram_free = s.psram_free ∧
    (sysmon_deinit s).psram_total = s.psram_total ∧
    (sysmon_deinit s).psram_used_percent = s.psram_used_percent ∧
    (sysmon_deinit s).series_write_index = s.series_write_index ∧
    (sysmon_deinit s).psram_seen = s.psram_seen ∧
    (sysmon_deinit s).prev_idle_ticks_0 = s.prev_idle_ticks_0 ∧
    (sysmon_deinit s).prev_idle_ticks_1 = s.prev_idle_ticks_1 := by
  repeat' apply And.intro
  all_goals rfl

/-- On either allocation-failure path, `ensure_grow` reports `false` with
the state exactly as given. -/
theorem ensure_grow_failure_state (SC MAXT : Nat) (s : SysMonState)
    (actual : Nat) (b : Bool) (inp : EnsureInput)
    (h : (ensure_grow SC MAXT s actual b inp).2 = false) :
    (ensure_grow SC MAXT s actual b inp).1 = s := by
  simp only [ensure_grow] at h ⊢
  split_ifs at h ⊢ <;> simp_all

/-- The growth target is clamped to the hard maximum. -/
theorem grow_required_le (MAXT actual : Nat) (b : Bool) :
    grow_required MAXT actual b ≤ MAXT := by
  simp only [grow_required]
  split_ifs <;> omega

/-- On success, `ensure_grow` leaves the capacity unchanged or raises it to
the clamped target, which never exceeds `MAXT`. -/
theorem ensure_grow_success_capacity (SC MAXT : Nat) (s : SysMonState)
    (actual : Nat) (b : Bool) (inp : EnsureInput)
    (h : (ensure_grow SC MAXT s actual b inp).2 = true) :
    s.task_capacity ≤ (ensure_grow SC MAXT s actual b inp).1.task_capacity ∧
    ((ensure_grow SC MAXT s actual b inp).1.task_capacity = s.task_capacity ∨
      (ensure_grow SC MAXT s actual b inp).1.task_capacity ≤ MAXT) := by
  have hle := grow_required_le MAXT actual b
  simp only [ensure_grow] at h ⊢
  split_ifs at h ⊢ <;> simp_all <;> omega

/-- C6: when `_ensure_task_storage_capacity` fails (either the new task
table's `calloc` or the new scratch buffer's `malloc` returned `NULL`), it
reports `false` and leaves the whole state — in particular the existing
table with every slot's contents, the scratch-buffer pointer, and the
capacity — exactly as before the call. -/
theorem ensure_capacity_failure_no_mutation (SC MAXT : Nat)
    (s : SysMonState) (inp : EnsureInput)
    (h : (ensure_task_storage_capacity SC MAXT s inp).2 = false) :
    (ensure_task_storage_capacity SC MAXT s inp).1 = s ∧
    (ensure_task_storage_capacity SC MAXT s inp).1.tasks = s.tasks ∧
    (ensure_task_storage_capacity SC MAXT s inp).1.task_status_alloc =
      s.task_status_alloc ∧
    (ensure_task_storage_capacity SC MAXT s inp).1.task_capacity =
      s.task_capacity := by
  have h1 : (ensure_task_storage_capacity SC MAXT s inp).1 = s := by
    simp only [ensure_task_storage_capacity] at h ⊢
    split_ifs at h ⊢ with ha hb
    · exact ensure_grow_failure_state SC MAXT s inp.snapshot_count _ inp h
    · exact ensure_grow_failure_state SC MAXT s inp.num_tasks_estimate false inp h
  exact ⟨h1, by rw [h1], by rw [h1], by rw [h1]⟩

/-- Witness for C6: with no existing buffer, one live task and a failing
`calloc`, the call reports `false` and the state is untouched. -/
theorem ensure_capacity_failure_no_mutation_witness :
    (ensure_task_storage_capacity 2 16 (initState 2)
        { snapshot_count := 0, num_tasks_estimate := 1,
          alloc_tasks_ok := false, alloc_status_ok := true }).1 = initState 2 ∧
    (ensure_task_storage_capacity 2 16 (initState 2)
        { snapshot_count := 0, num_tasks_estimate := 1,
          alloc_tasks_ok := false, alloc_status_ok := true }).1.tasks =
      (initState 2).tasks ∧
    (ensure_task_storage_capacity 2 16 (initState 2)
        { snapshot_count := 0, num_tasks_estimate := 1,
          alloc_tasks_ok := false, alloc_status_ok := true }).1.task_status_alloc =
      (initState 2).task_status_alloc ∧
    (ensure_task_storage_capacity 2 16 (initState 2)
        { snapshot_count := 0, num_tasks_estimate := 1,
          alloc_tasks_ok := false, alloc_status_ok := true }).1.task_capacity =
      (initState 2).task_capacity :=
  ensure_capacity_failure_no_mutation 2 16 (initState 2)
    { snapshot_count := 0, num_tasks_estimate := 1,
      alloc_tasks_ok := false, alloc_status_ok := true } (by decide)

/-- C4: after every successful `_ensure_task_storage_capacity` call the
capacity is at least what it was before the call, and (starting from any
capacity within the hard platform maximum `SYSMON_MAX_TRACKED_TASKS`, as
holds for the whole process lifetime from the zero-initialized state) it
never exceeds that maximum. -/
theorem ensure_capacity_monotone_and_clamped (SC MAXT : Nat)
    (s : SysMonState) (inp : EnsureInput)
    (hok : (ensure_task_storage_capacity SC MAXT s inp).2 = true)
    (hcap : s.task_capacity ≤ MAXT) :
    s.task_capacity ≤ (ensure_task_storage_capacity SC MAXT s inp).1.task_capacity ∧
    (ensure_task_storage_capacity SC MAXT s inp).1.task_capacity ≤ MAXT := by
  simp only [ensure_task_storage_capacity] at hok ⊢
  split_ifs at hok ⊢ with h1 h2
  · simp_all
  · have := ensure_grow_success_capacity SC MAXT s inp.snapshot_count
      (decide (inp.snapshot_count = s.task_capacity)) inp hok
    rcases this.2 with he | hle
    · exact ⟨this.1, by omega⟩
    · exact ⟨this.1, hle⟩
  · have := ensure_grow_success_capacity SC MAXT s inp.num_tasks_estimate
      false inp hok
    rcases this.2 with he | hle
    · exact ⟨this.1, by omega⟩
    · exact ⟨this.1, hle⟩

/-- Witness for C4: growing from the empty initial state with one live
task and `SYSMON_MAX_TRACKED_TASKS = 16` succeeds with a capacity between
the old `0` and `16`. -/
theorem ensure_capacity_monotone_and_clamped_witness :
    (initState 2).task_capacity ≤
      (ensure_task_storage_capacity 2 16 (initState 2)
        { snapshot_count := 0, num_tasks_estimate := 1,
          alloc_tasks_ok := true, alloc_status_ok := true }).1.task_capacity ∧
    (ensure_task_storage_capacity 2 16 (initState 2)
        { snapshot_count := 0, num_tasks_estimate := 1,
          alloc_tasks_ok := true, alloc_status_ok := true }).1.task_capacity ≤ 16 :=
  ensure_capacity_monotone_and_clamped 2 16 (initState 2)
    { snapshot_count := 0, num_tasks_estimate := 1,
      alloc_tasks_ok := true, alloc_status_ok := true } (by decide) (by decide)

/-- `_update_series_buffers` never touches the `psram_seen` latch. -/
theorem update_series_buffers_psram_seen (SC : Nat) (s : SysMonState)
    (overall c0 c1 : ℚ) (m : MemInput) (du pu : ℚ) :
    (update_series_buffers SC s overall c0 c1 m du pu).psram_seen = s.psram_seen := rfl

/-- `_calculate_cpu_metrics` never touches the `psram_seen` latch. -/
theorem calculate_cpu_metrics_psram_seen (s : SysMonState)
    (statuses : List TaskStatus) (h0 h1 dt : Nat) :
    (calculate_cpu_metrics s statuses h0 h1 dt).1.psram_seen = s.psram_seen := rfl

/-- `_collect_memory_stats` ors the latch with the PSRAM-present
observation: it becomes (or stays) true exactly when it was already true or
the PSRAM total is nonzero. -/
theorem collect_memory_stats_psram_seen (s : SysMonState) (m : MemInput) :
    (collect_memory_stats s m).1.psram_seen =
      (s.psram_seen || decide (0 < m.psram_total)) := by
  simp only [collect_memory_stats]
  split_ifs with h <;> simp [h]

/-- `_ensure_task_storage_capacity` (via `ensure_grow`) never touches the
`psram_seen` latch. -/
theorem ensure_grow_psram_seen (SC MAXT : Nat) (s : SysMonState)
    (actual : Nat) (b : Bool) (inp : EnsureInput) :
    (ensure_grow SC MAXT s actual b inp).1.psram_seen = s.psram_seen := by
  simp only [ensure_grow]
  split_ifs <;> rfl

/-- `_ensure_task_storage_capacity` never touches the `psram_seen` latch. -/
theorem ensure_capacity_psram_seen (SC MAXT : Nat) (s : SysMonState)
    (inp : EnsureInput) :
    (ensure_task_storage_capacity SC MAXT s inp).1.psram_seen = s.psram_seen := by
  simp only [ensure_task_storage_capacity]
  split_ifs <;> first | rfl | apply ensure_grow_psram_seen

/-- Across one full `sysmon_monitor` iteration, the `psram_seen` latch is
the old latch or-ed with this cycle's PSRAM observation (or simply the old
latch when the cycle bailed out before reaching the memory collector). -/
theorem cycle_psram_seen (SC MAXT : Nat) (s : SysMonState) (inp : CycleInput) :
    (sysmon_cycle SC MAXT s inp).psram_seen = s.psram_seen ∨
    (sysmon_cycle SC MAXT s inp).psram_seen =
      (s.psram_seen || decide (0 < inp.mem.psram_total)) := by
  rcases he : ensure_task_storage_capacity SC MAXT s inp.ensure with ⟨s0, b⟩
  have hs0 : s0.psram_seen = s.psram_seen := by
    have h := ensure_capacity_psram_seen SC MAXT s inp.ensure
    rw [he] at h
    exact h
  cases b with
  | false =>
    left
    simp only [sysmon_cycle, he]
    exact hs0
  | true =>
    by_cases hn : inp.num_returned = 0
    · left
      simp only [sysmon_cycle, he, sample_task_states, if_pos hn]
      exact hs0
    · by_cases ha : inp.tasks_seen_alloc_ok
      · right
        simp [sysmon_cycle, he, sample_task_states, hn, ha, hs0,
          update_series_buffers_psram_seen, collect_memory_stats_psram_seen,
          calculate_cpu_metrics_psram_seen]
      · left
        simp [sysmon_cycle, he, sample_task_states, hn, ha, hs0]

/-- C9: `psram_seen` is a one-way latch.  Once true it survives any full
sampling cycle and `sysmon_deinit`; `_collect_memory_stats` sets it in any
cycle observing a nonzero PSRAM total, and a cycle that reaches the memory
collector (capacity ensured, nonempty snapshot, `tasks_seen` allocated)
with nonzero PSRAM total ends with the latch true. -/
theorem psram_present_one_way_latch (SC MAXT : Nat) (s : SysMonState)
    (inp : CycleInput) :
    (s.psram_seen = true → (sysmon_cycle SC MAXT s inp).psram_seen = true) ∧
    (s.psram_seen = true → (sysmon_deinit s).psram_seen = true) ∧
    (0 < inp.mem.psram_total →
      (collect_memory_stats s inp.mem).1.psram_seen = true) ∧
    ((ensure_task_storage_capacity SC MAXT s inp.ensure).2 = true →
      inp.num_returned ≠ 0 → inp.tasks_seen_alloc_ok = true →
      0 < inp.mem.psram_total →
      (sysmon_cycle SC MAXT s inp).psram_seen = true) := by
  refine ⟨?_, fun h => h, ?_, ?_⟩
  · intro hps
    rcases cycle_psram_seen SC MAXT s inp with h | h <;> simp [h, hps]
  · intro hp
    rw [collect_memory_stats_psram_seen]
    simp [hp]
  · intro hens hn ha hp
    rcases he : ensure_task_storage_capacity SC MAXT s inp.ensure with ⟨s0, b⟩
    rw [he] at hens
    subst hens
    have hs0 : s0.psram_seen = s.psram_seen := by
      have h := ensure_capacity_psram_seen SC MAXT s inp.ensure
      rw [he] at h
      exact h
    simp [sysmon_cycle, he, sample_task_states, hn, ha, hp,
      update_series_buffers_psram_seen, collect_memory_stats_psram_seen,
      calculate_cpu_metrics_psram_seen]

/-- A concrete one-cycle input used to witness the `psram_seen` latch: one
live task, successful allocations, and a nonzero PSRAM total reading. -/
def c9Input : CycleInput :=
  { ensure := { snapshot_count := 0, num_tasks_estimate := 1,
                alloc_tasks_ok := true, alloc_status_ok := true }
    num_returned := 1
    total_run_time := 0
    statuses := []
    stack_sizes := fun _ => 0
    idle_handle_0 := 0
    idle_handle_1 := 0
    tasks_seen_alloc_ok := true
    mem := { dram_free := 0, dram_min_free := 0, dram_largest := 0,
             dram_total := 0, psram_free := 0, psram_total := 1 } }

/-- Witness for C9: a latch that is already true survives a full cycle and
`sysmon_deinit`; starting from the zero-initialized state, a cycle that
observes PSRAM total 1 ends with the latch true. -/
theorem psram_present_one_way_latch_witness :
    (sysmon_cycle 1 16 { initState 1 with psram_seen := true } c9Input).psram_seen = true ∧
    (sysmon_deinit { initState 1 with psram_seen := true }).psram_seen = true ∧
    (sysmon_cycle 1 16 (initState 1) c9Input).psram_seen = true := by
  have h1 := psram_present_one_way_latch 1 16
    { initState 1 with psram_seen := true } c9Input
  have h2 := psram_present_one_way_latch 1 16 (initState 1) c9Input
  exact ⟨h1.1 rfl, h1.2.1 rfl, h2.2.2.2 (by decide) (by decide) rfl (by decide)⟩

/-- `_process_deleted_tasks` preserves the table length. -/
theorem process_deleted_tasks_length (SC : Nat) (tasks : List TaskUsageSample)
    (seen : Nat → Bool) :
    (process_deleted_tasks SC tasks seen).length = tasks.length := by
  simp [process_deleted_tasks]

/-- Pointwise description of `_process_deleted_tasks`: the slot at `j` is
miss-processed exactly when it is active and unseen, and untouched
otherwise. -/
theorem process_deleted_tasks_getD (SC : Nat) (tasks : List TaskUsageSample)
    (seen : Nat → Bool) (j : Nat) (hj : j < tasks.length) :
    (process_deleted_tasks SC tasks seen).getD j (zeroSlot SC) =
      (if (tasks.getD j (zeroSlot SC)).is_active = true ∧ ¬ seen j = true then
        record_miss SC (tasks.getD j (zeroSlot SC))
      else tasks.getD j (zeroSlot SC)) := by
  simp [process_deleted_tasks, List.getD_eq_getElem?_getD, List.getElem?_map,
    List.getElem?_range hj]

/-- `record_miss` advances the slot's write cursor modulo `SC`. -/
theorem record_miss_write_index (SC : Nat) (t : TaskUsageSample) :
    (record_miss SC t).write_index = (t.write_index + 1) % SC := by
  simp only [record_miss]
  split_ifs <;> rfl

/-- `record_miss` bumps the miss counter (deactivating and resetting it at
the `SC` threshold). -/
theorem record_miss_counter (SC : Nat) (t : TaskUsageSample) :
    (record_miss SC t).consecutive_zero_samples =
      (if t.consecutive_zero_samples + 1 ≥ SC then 0
       else t.consecutive_zero_samples + 1) ∧
    (record_miss SC t).is_active =
      (if t.consecutive_zero_samples + 1 ≥ SC then false else t.is_active) := by
  simp only [record_miss]
  split_ifs <;> simp_all

/-- `record_miss` records a zero in each of the three history buffers at
the slot's (pre-advance) write cursor. -/
theorem record_miss_zero_histories (SC : Nat) (t : TaskUsageSample)
    (h1 : t.write_index < t.usage_percent_history.length)
    (h2 : t.write_index < t.stack_usage_bytes_history.length)
    (h3 : t.write_index < t.stack_usage_percent_history.length) :
    (record_miss SC t).usage_percent_history[t.write_index]? = some 0 ∧
    (record_miss SC t).stack_usage_bytes_history[t.write_index]? = some 0 ∧
    (record_miss SC t).stack_usage_percent_history[t.write_index]? = some 0 := by
  simp only [record_miss]
  split_ifs <;>
    exact ⟨List.getElem?_set_self h1, List.getElem?_set_self h2,
      List.getElem?_set_self h3⟩

/-- The effect of one sampling cycle of `_process_deleted_tasks` on a
single slot that is never seen: active slots record a miss, inactive slots
are skipped by the `is_active` guard (sysmon.c:282). -/
def miss_cycle (SC : Nat) (t : TaskUsageSample) : TaskUsageSample :=
  if t.is_active then record_miss SC t else t

/-- Under consecutive misses starting from a fresh observation
(`consecutive_zero_samples = 0`), a slot is still active with miss counter
`k` after any `k < SC` cycles. -/
theorem miss_cycle_iterate_active (SC : Nat) (t0 : TaskUsageSample)
    (ht0a : t0.is_active = true) (ht0c : t0.consecutive_zero_samples = 0) :
    ∀ k, k < SC → ((miss_cycle SC)^[k] t0).is_active = true ∧
      ((miss_cycle SC)^[k] t0).consecutive_zero_samples = k := by
  intro k
  induction k with
  | zero => intro _; simpa [ht0a] using ht0c
  | succ n ih =>
    intro hk
    have h := ih (by omega)
    rw [Function.iterate_succ_apply']
    simp only [miss_cycle, h.1, if_pos]
    have hc := record_miss_counter SC ((miss_cycle SC)^[n] t0)
    rw [h.2] at hc
    rw [if_neg (by omega)] at hc
    exact ⟨by rw [hc.2, if_neg (by omega), h.1], hc.1⟩

/-- C3: (a) in an eviction pass, every active slot unseen in the cycle gets
a miss recorded: a zero appended to each of its three history buffers at
its cursor and the cursor advanced modulo `SC`; (b) a slot unseen for
exactly `SC - 1 = SAMPLE_COUNT - 1` consecutive cycles is still active
(with miss counter `SC - 1`), and the `SC`-th consecutive miss deactivates
it with the miss counter reset to 0; (c) a slot claimed afterwards for a
newly observed name starts from the fully zeroed `memset` image — zero
counters, zero metadata and all-zero history — with only the name and the
active flag set. -/
theorem eviction_zero_fill_threshold_and_clean_reuse (SC : Nat)
    (tasks : List TaskUsageSample) (seen : Nat → Bool) (j : Nat)
    (t0 : TaskUsageSample) (name : String)
    (tbl tbl2 : List TaskUsageSample) (i : Nat)
    (hSC : 0 < SC) (hj : j < tasks.length)
    (hact : (tasks.getD j (zeroSlot SC)).is_active = true)
    (hseen : seen j = false)
    (hw1 : (tasks.getD j (zeroSlot SC)).write_index <
      (tasks.getD j (zeroSlot SC)).usage_percent_history.length)
    (hw2 : (tasks.getD j (zeroSlot SC)).write_index <
      (tasks.getD j (zeroSlot SC)).stack_usage_bytes_history.length)
    (hw3 : (tasks.getD j (zeroSlot SC)).write_index <
      (tasks.getD j (zeroSlot SC)).stack_usage_percent_history.length)
    (ht0a : t0.is_active = true) (ht0c : t0.consecutive_zero_samples = 0)
    (hfind : tbl.findIdx? (fun t => slot_matches t name) = none)
    (hcreate : find_or_create_task_index SC tbl name = some (tbl2, i)) :
    (process_deleted_tasks SC tasks seen).getD j (zeroSlot SC) =
      record_miss SC (tasks.getD j (zeroSlot SC)) ∧
    (record_miss SC (tasks.getD j (zeroSlot SC))).usage_percent_history[(tasks.getD j (zeroSlot SC)).write_index]? = some 0 ∧
    (record_miss SC (tasks.getD j (zeroSlot SC))).stack_usage_bytes_history[(tasks.getD j (zeroSlot SC)).write_index]? = some 0 ∧
    (record_miss SC (tasks.getD j (zeroSlot SC))).stack_usage_percent_history[(tasks.getD j (zeroSlot SC)).write_index]? = some 0 ∧
    (record_miss SC (tasks.getD j (zeroSlot SC))).write_index =
      ((tasks.getD j (zeroSlot SC)).write_index + 1) % SC ∧
    ((miss_cycle SC)^[SC - 1] t0).is_active = true ∧
    ((miss_cycle SC)^[SC - 1] t0).consecutive_zero_samples = SC - 1 ∧
    ((miss_cycle SC)^[SC] t0).is_active = false ∧
    ((miss_cycle SC)^[SC] t0).consecutive_zero_samples = 0 ∧
    tbl2[i]? = some (discoveredSlot SC name) ∧
    (discoveredSlot SC name).usage_percent_history = List.replicate SC 0 ∧
    (discoveredSlot SC name).stack_usage_bytes_history = List.replicate SC 0 ∧
    (discoveredSlot SC name).stack_usage_percent_history = List.replicate SC 0 ∧
    (discoveredSlot SC name).prev_run_time_ticks = 0 ∧
    (discoveredSlot SC name).write_index = 0 ∧
    (discoveredSlot SC name).consecutive_zero_samples = 0 ∧
    (discoveredSlot SC name).stack_high_water_mark = 0 ∧
    (discoveredSlot SC name).total_run_time_ticks = 0 := by
  have hzero := record_miss_zero_histories SC (tasks.getD j (zeroSlot SC)) hw1 hw2 hw3
  have hlast := miss_cycle_iterate_active SC t0 ht0a ht0c (SC - 1) (by omega)
  have hdeact : ((miss_cycle SC)^[SC] t0).is_active = false ∧
      ((miss_cycle SC)^[SC] t0).consecutive_zero_samples = 0 := by
    have hcount : (miss_cycle SC)^[SC - 1 + 1] = (miss_cycle SC)^[SC] := by
      rw [Nat.sub_add_cancel hSC]
    rw [← hcount, Function.iterate_succ_apply']
    simp only [miss_cycle, hlast.1, if_pos]
    obtain ⟨hc1, hc2⟩ := record_miss_counter SC ((miss_cycle SC)^[SC - 1] t0)
    rw [hlast.2] at hc1 hc2
    rw [if_pos (by omega : SC - 1 + 1 ≥ SC)] at hc1
    rw [if_pos (by omega : SC - 1 + 1 ≥ SC)] at hc2
    exact ⟨hc2, hc1⟩
  have hreuse : tbl2[i]? = some (discoveredSlot SC name) := by
    unfold find_or_create_task_index at hcreate
    rw [hfind] at hcreate
    cases hfi : tbl.findIdx? (fun t => !t.is_active) with
    | none => rw [hfi] at hcreate; simp at hcreate
    | some j0 =>
      rw [hfi] at hcreate
      simp only [Option.some.injEq, Prod.mk.injEq] at hcreate
      obtain ⟨htbl2, hi⟩ := hcreate
      obtain ⟨hlt, -, -⟩ := List.findIdx?_eq_some_iff_getElem.mp hfi
      rw [← htbl2, ← hi]
      exact List.getElem?_set_self hlt
  refine ⟨?_, hzero.1, hzero.2.1, hzero.2.2, record_miss_write_index SC _,
    hlast.1, hlast.2, hdeact.1, hdeact.2, hreuse,
    rfl, rfl, rfl, rfl, rfl, rfl, rfl, rfl⟩
  rw [process_deleted_tasks_getD SC tasks seen j hj]
  rw [if_pos ⟨hact, by simp [hseen]⟩]

/-- A concrete active slot (history depth 2) used to witness eviction. -/
def c3Slot : TaskUsageSample :=
  { zeroSlot 2 with is_active := true, task_name := "a" }

/-- Witness for C3 with `SAMPLE_COUNT = 2`: the unseen active slot records
a miss; after 1 miss it is still active with counter 1, after the 2nd it
is inactive with counter 0; and the slot claimed for new name "b" holds
the zeroed discovery image. -/
theorem eviction_zero_fill_threshold_and_clean_reuse_witness :
    (process_deleted_tasks 2 [c3Slot] (fun _ => false)).getD 0 (zeroSlot 2) =
      record_miss 2 ([c3Slot].getD 0 (zeroSlot 2)) ∧
    ((miss_cycle 2)^[1] c3Slot).is_active = true ∧
    ((miss_cycle 2)^[1] c3Slot).consecutive_zero_samples = 1 ∧
    ((miss_cycle 2)^[2] c3Slot).is_active = false ∧
    ((miss_cycle 2)^[2] c3Slot).consecutive_zero_samples = 0 ∧
    ([c3Slot, zeroSlot 2].set 1 (discoveredSlot 2 "b"))[1]? =
      some (discoveredSlot 2 "b") := by
  obtain ⟨a1, a2, a3, a4, a5, b1, b2, b3, b4, c1, -⟩ :=
    eviction_zero_fill_threshold_and_clean_reuse 2 [c3Slot] (fun _ => false) 0
      c3Slot "b" [c3Slot, zeroSlot 2]
      ([c3Slot, zeroSlot 2].set 1 (discoveredSlot 2 "b")) 1
      (by decide) (by decide) (by decide) rfl (by decide) (by decide)
      (by decide) (by decide) (by decide) (by decide) rfl
  exact ⟨a1, b1, b2, b3, b4, c1⟩


/-- `List.getD` agrees with `getElem` at in-range indices. -/
theorem getD_eq_getElem_of_lt {α : Type} (l : List α) (d : α) (k : Nat)
    (h : k < l.length) : l.getD k d = l[k] := by
  simp [List.getD_eq_getElem?_getD, List.getElem?_eq_getElem h]

/-- Spec §3 invariant, "at most one active slot per distinct task name":
any two active slots bearing the same name are the same slot. -/
def uniqueActiveNames (tasks : List TaskUsageSample) : Prop :=
  ∀ i, (hi : i < tasks.length) → ∀ j, (hj : j < tasks.length) →
    tasks[i].is_active = true → tasks[j].is_active = true →
    tasks[i].task_name = tasks[j].task_name → i = j

/-- The reallocated table of `_ensure_task_storage_capacity` copies every
active slot below the old capacity to the same index, and every active
slot it contains is such a copy (all other entries are the zeroed `calloc`
image, hence inactive). -/
theorem grown_table_spec (SC cap required : Nat)
    (old : List TaskUsageSample) (hcr : cap ≤ required) :
    (∀ k, k < cap → (old.getD k (zeroSlot SC)).is_active = true →
      (grown_table SC cap required (some old)).getD k (zeroSlot SC) =
        old.getD k (zeroSlot SC)) ∧
    (∀ k, ((grown_table SC cap required (some old)).getD k (zeroSlot SC)).is_active = true →
      k < cap ∧
      (grown_table SC cap required (some old)).getD k (zeroSlot SC) =
        old.getD k (zeroSlot SC) ∧
      (old.getD k (zeroSlot SC)).is_active = true) := by
  constructor
  · intro k hk hak
    have hkr : k < required := by omega
    simp only [List.getD_eq_getElem?_getD] at hak
    simp only [grown_table, List.getD_eq_getElem?_getD, List.getElem?_map,
      List.getElem?_range hkr, Option.map_some', Option.getD_some]
    rw [if_pos ⟨hk, hak⟩]
  · intro k hak
    by_cases hkr : k < required
    · simp only [grown_table, List.getD_eq_getElem?_getD, List.getElem?_map,
        List.getElem?_range hkr, Option.map_some', Option.getD_some] at hak ⊢
      by_cases hc : k < cap ∧ (old[k]?.getD (zeroSlot SC)).is_active = true
      · rw [if_pos hc] at hak ⊢
        exact ⟨hc.1, rfl, hc.2⟩
      · rw [if_neg hc] at hak
        exact absurd hak (by simp [zeroSlot])
    · have hlen : (grown_table SC cap required (some old)).length ≤ k := by
        simp only [grown_table, List.length_map, List.length_range]
        omega
      rw [List.getD_eq_getElem?_getD, List.getElem?_eq_none hlen] at hak
      exact absurd hak (by simp [zeroSlot])

/-- How `ensure_grow` transforms the task table: either untouched
(adequate capacity or allocation failure), or reallocated per
`grown_table_spec`. -/
theorem ensure_grow_tasks_cases (SC MAXT : Nat) (s : SysMonState)
    (actual : Nat) (b : Bool) (inp : EnsureInput)
    (old new : List TaskUsageSample) (hold : s.tasks = some old)
    (hnew : (ensure_grow SC MAXT s actual b inp).1.tasks = some new) :
    new = old ∨
    ((∀ k, k < s.task_capacity → (old.getD k (zeroSlot SC)).is_active = true →
        new.getD k (zeroSlot SC) = old.getD k (zeroSlot SC)) ∧
     (∀ k, (new.getD k (zeroSlot SC)).is_active = true →
        k < s.task_capacity ∧
        new.getD k (zeroSlot SC) = old.getD k (zeroSlot SC) ∧
        (old.getD k (zeroSlot SC)).is_active = true)) := by
  simp only [ensure_grow] at hnew
  split_ifs at hnew with h1 h2 h3
  all_goals
    first
      | (left
         rw [hold] at hnew
         exact (Option.some_inj.mp hnew).symm)
      | (right
         simp only [hold, Option.some.injEq] at hnew
         subst hnew
         exact grown_table_spec SC s.task_capacity
           (grow_required MAXT actual b) old (by omega))

/-- Claiming an inactive slot for a name no active slot carries preserves
the unique-active-name invariant. -/
theorem uniqueActiveNames_set_discovered (SC : Nat)
    (tasks : List TaskUsageSample) (name : String) (j0 : Nat)
    (huniq : uniqueActiveNames tasks)
    (hnone : tasks.findIdx? (fun t => slot_matches t name) = none)
    (hlt : j0 < tasks.length) :
    uniqueActiveNames (tasks.set j0 (discoveredSlot SC name)) := by
  have hnoname : ∀ k, (hk : k < tasks.length) → tasks[k].is_active = true →
      tasks[k].task_name ≠ name := by
    intro k hk hak heq
    have hpf := List.findIdx?_eq_none_iff.mp hnone tasks[k] (List.getElem_mem hk)
    simp [slot_matches, hak, heq] at hpf
  intro i1 hi1 j1 hj1 ha1 ha2 hnm
  rw [List.length_set] at hi1 hj1
  simp only [List.getElem_set] at ha1 ha2 hnm
  by_cases h1 : j0 = i1 <;> by_cases h2 : j0 = j1
  · omega
  · rw [if_pos h1] at ha1 hnm
    rw [if_neg h2] at ha2 hnm
    exact absurd hnm.symm (hnoname j1 hj1 ha2)
  · rw [if_neg h1] at ha1 hnm
    rw [if_pos h2] at ha2 hnm
    exact absurd hnm (hnoname i1 hi1 ha1)
  · rw [if_neg h1] at ha1 hnm
    rw [if_neg h2] at ha2 hnm
    exact huniq i1 hi1 j1 hj1 ha1 ha2 hnm

/-- C5: the resolver returns an existing active slot on a name match; it
creates a slot only when no active slot carries the name, in the first
inactive position; both the resolver and the capacity manager's table
growth (which copies each active slot to its own index) preserve the
invariant that at most one active slot carries any given task name. -/
theorem unique_active_slot_per_name (SC MAXT : Nat) (s : SysMonState)
    (inp : EnsureInput) (tasks : List TaskUsageSample) (name : String) :
    (∀ j, tasks.findIdx? (fun t => slot_matches t name) = some j →
      find_or_create_task_index SC tasks name = some (tasks, j) ∧
      (tasks.getD j (zeroSlot SC)).is_active = true ∧
      (tasks.getD j (zeroSlot SC)).task_name = name) ∧
    (∀ tbl2 i, tasks.findIdx? (fun t => slot_matches t name) = none →
      find_or_create_task_index SC tasks name = some (tbl2, i) →
      (tasks.getD i (zeroSlot SC)).is_active = false ∧
      (∀ k, k < i → (tasks.getD k (zeroSlot SC)).is_active = true) ∧
      tbl2 = tasks.set i (discoveredSlot SC name)) ∧
    (uniqueActiveNames tasks →
      ∀ tbl2 i, find_or_create_task_index SC tasks name = some (tbl2, i) →
      uniqueActiveNames tbl2) ∧
    (∀ old new, s.tasks = some old → s.task_capacity ≤ old.length →
      (ensure_task_storage_capacity SC MAXT s inp).1.tasks = some new →
      (∀ k, k < s.task_capacity → (old.getD k (zeroSlot SC)).is_active = true →
        new.getD k (zeroSlot SC) = old.getD k (zeroSlot SC)) ∧
      (uniqueActiveNames old → uniqueActiveNames new)) := by
  refine ⟨?_, ?_, ?_, ?_⟩
  · intro j hj
    obtain ⟨hlt, hp, -⟩ := List.findIdx?_eq_some_iff_getElem.mp hj
    have hmatch : (tasks[j].is_active && (tasks[j].task_name == name)) = true := by
      simpa [slot_matches] using hp
    rw [Bool.and_eq_true, beq_iff_eq] at hmatch
    refine ⟨?_, ?_, ?_⟩
    · simp [find_or_create_task_index, hj]
    · rw [getD_eq_getElem_of_lt tasks (zeroSlot SC) j hlt]
      exact hmatch.1
    · rw [getD_eq_getElem_of_lt tasks (zeroSlot SC) j hlt]
      exact hmatch.2
  · intro tbl2 i hnone hsome
    unfold find_or_create_task_index at hsome
    rw [hnone] at hsome
    cases hfi : tasks.findIdx? (fun t => !t.is_active) with
    | none => rw [hfi] at hsome; simp at hsome
    | some j0 =>
      rw [hfi] at hsome
      simp only [Option.some.injEq, Prod.mk.injEq] at hsome
      obtain ⟨htbl2, hi⟩ := hsome
      subst hi
      obtain ⟨hlt, hp, hfirst⟩ := List.findIdx?_eq_some_iff_getElem.mp hfi
      refine ⟨?_, ?_, htbl2.symm⟩
      · rw [getD_eq_getElem_of_lt tasks (zeroSlot SC) j0 hlt]
        simpa using hp
      · intro k hk
        have hnk := hfirst k hk
        rw [getD_eq_getElem_of_lt tasks (zeroSlot SC) k (by omega)]
        simpa using hnk
  · intro huniq tbl2 i hsome
    unfold find_or_create_task_index at hsome
    cases hm : tasks.findIdx? (fun t => slot_matches t name) with
    | some j =>
      rw [hm] at hsome
      simp only [Option.some.injEq, Prod.mk.injEq] at hsome
      rw [← hsome.1]
      exact huniq
    | none =>
      rw [hm] at hsome
      cases hfi : tasks.findIdx? (fun t => !t.is_active) with
      | none => rw [hfi] at hsome; simp at hsome
      | some j0 =>
        rw [hfi] at hsome
        simp only [Option.some.injEq, Prod.mk.injEq] at hsome
        obtain ⟨hlt, -, -⟩ := List.findIdx?_eq_some_iff_getElem.mp hfi
        rw [← hsome.1]
        exact uniqueActiveNames_set_discovered SC tasks name j0 huniq hm hlt
  · intro old new hold hle hnew
    have hcase : new = old ∨
        ((∀ k, k < s.task_capacity →
            (old.getD k (zeroSlot SC)).is_active = true →
            new.getD k (zeroSlot SC) = old.getD k (zeroSlot SC)) ∧
         (∀ k, (new.getD k (zeroSlot SC)).is_active = true →
            k < s.task_capacity ∧
            new.getD k (zeroSlot SC) = old.getD k (zeroSlot SC) ∧
            (old.getD k (zeroSlot SC)).is_active = true)) := by
      simp only [ensure_task_storage_capacity] at hnew
      split_ifs at hnew with hA hB
      · left
        rw [hold] at hnew
        exact (Option.some_inj.mp hnew).symm
      · exact ensure_grow_tasks_cases SC MAXT s inp.snapshot_count _ inp
          old new hold hnew
      · exact ensure_grow_tasks_cases SC MAXT s inp.num_tasks_estimate false inp
          old new hold hnew
    rcases hcase with heq | ⟨hcopy, hsource⟩
    · subst heq
      exact ⟨fun k _ _ => rfl, fun h => h⟩
    · refine ⟨hcopy, ?_⟩
      intro huo i1 hi1 j1 hj1 ha1 ha2 hnm
      have hi1g : (new.getD i1 (zeroSlot SC)).is_active = true := by
        rw [getD_eq_getElem_of_lt new (zeroSlot SC) i1 hi1]
        exact ha1
      have hj1g : (new.getD j1 (zeroSlot SC)).is_active = true := by
        rw [getD_eq_getElem_of_lt new (zeroSlot SC) j1 hj1]
        exact ha2
      obtain ⟨hic, hieq, hia⟩ := hsource i1 hi1g
      obtain ⟨hjc, hjeq, hja⟩ := hsource j1 hj1g
      apply huo i1 (by omega) j1 (by omega)
      · rw [← getD_eq_getElem_of_lt old (zeroSlot SC) i1 (by omega)]
        exact hia
      · rw [← getD_eq_getElem_of_lt old (zeroSlot SC) j1 (by omega)]
        exact hja
      · rw [← getD_eq_getElem_of_lt old (zeroSlot SC) i1 (by omega),
          ← getD_eq_getElem_of_lt old (zeroSlot SC) j1 (by omega),
          ← hieq, ← hjeq,
          getD_eq_getElem_of_lt new (zeroSlot SC) i1 hi1,
          getD_eq_getElem_of_lt new (zeroSlot SC) j1 hj1]
        exact hnm

/-- Witness for C5: resolving the already-tracked name "a" returns its
existing slot without touching the table; creating "b" in the free slot and
a capacity-manager pass both preserve the unique-active-name invariant. -/
theorem unique_active_slot_per_name_witness :
    find_or_create_task_index 2 [c3Slot, zeroSlot 2] "a" =
      some ([c3Slot, zeroSlot 2], 0) ∧
    uniqueActiveNames ([c3Slot, zeroSlot 2].set 1 (discoveredSlot 2 "b")) ∧
    uniqueActiveNames [c3Slot, zeroSlot 2] := by
  have h1 := unique_active_slot_per_name 2 16
    { initState 2 with
        tasks := some [c3Slot, zeroSlot 2]
        task_capacity := 2
        task_status_alloc := true }
    { snapshot_count := 1, num_tasks_estimate := 1,
      alloc_tasks_ok := true, alloc_status_ok := true }
    [c3Slot, zeroSlot 2] "a"
  have h2 := unique_active_slot_per_name 2 16 (initState 2)
    { snapshot_count := 1, num_tasks_estimate := 1,
      alloc_tasks_ok := true, alloc_status_ok := true }
    [c3Slot, zeroSlot 2] "b"
  have huniq : uniqueActiveNames [c3Slot, zeroSlot 2] := by
    unfold uniqueActiveNames
    decide
  refine ⟨(h1.1 0 (by decide)).1, ?_, ?_⟩
  · exact h2.2.2.1 huniq ([c3Slot, zeroSlot 2].set 1 (discoveredSlot 2 "b")) 1
      (by decide)
  · have h4 := h1.2.2.2 [c3Slot, zeroSlot 2] [c3Slot, zeroSlot 2] rfl
      (by decide) (by decide)
    exact h4.2 huniq
